import Mathlib

/-!
# Verification of the Hildebrand Glow polling/aggregation core

Shallow embedding of `custom_components/hildebrand_glow/api.py` and
`custom_components/hildebrand_glow/coordinator.py`.  Numeric readings and
tariff rates are modelled as rationals; Python's `round(x, n)`
(round-half-to-even at `n` decimal places) is modelled by `pyRound`.
HTTP interactions are modelled by outcome types describing what the
transport layer produced for each request, and each source function
becomes a pure Lean function of those outcomes.  Python dictionaries
keyed by strings are modelled as functions `String → Option _` (absent
key = `none`); dict-building loops become folds over the iterated list.
-/

namespace HildebrandGlow

/-! ## Python `round` on rationals -/

/-- Floor of a rational as an integer, computed as floor division of the
numerator by the (positive) denominator. -/
def rfloor (q : ℚ) : ℤ := q.num.fdiv q.den

/-- Round-half-to-even to the nearest integer, as Python's builtin `round`
does. -/
def rhe (q : ℚ) : ℤ :=
  let f : ℤ := rfloor q
  if q - f < 1/2 then f
  else if 1/2 < q - f then f + 1
  else if f % 2 = 0 then f else f + 1

/-- Python's `round(q, n)`: round-half-to-even at `n` decimal places. -/
def pyRound (q : ℚ) (n : ℕ) : ℚ := (rhe (q * 10 ^ n) : ℚ) / 10 ^ n

/-! ## API client: daily readings (`api.py` lines 98-174) -/

/-- The decoded JSON body of an HTTP response from
`GET /resource/{id}/readings`: a `status` field and a `data` array of
`[timestamp, value|null]` pairs (`api.py` lines 136-144).  An absent
`data` key is modelled as the empty list, which Python's truthiness test
at line 143 treats identically. -/
structure ReadingsResponse where
  status : String
  data : List (ℕ × Option ℚ)
deriving Repr, DecidableEq

/-- Outcome of the HTTP request made by `get_daily_reading`
(`api.py` lines 130-166): a decoded 2xx response, a `ClientResponseError`
raised by `raise_for_status` (carrying the HTTP status), or a lower-level
`ClientError` (transport failure). -/
inductive FetchOutcome where
  | ok (resp : ReadingsResponse)
  | clientResponseError (status : ℕ)
  | clientError
deriving Repr, DecidableEq

/-- `sum(reading[1] for reading in readings if reading[1] is not None)`
(`api.py` line 152): the sum of exactly the value components that are
present. -/
def sumPresent (readings : List (ℕ × Option ℚ)) : ℚ :=
  (readings.filterMap Prod.snd).sum

/-- `GlowmarktApiClient.get_daily_reading` (`api.py` lines 119-166), as a
function of the HTTP outcome.  On a response with `status == "OK"` and a
truthy (non-empty) `data` array it sums the non-null values and rounds to
3 decimal places (lines 143-155); otherwise — non-OK status, empty data
(line 159), or either caught exception (lines 161-166) — it returns
`None`. -/
def get_daily_reading (outcome : FetchOutcome) : Option ℚ :=
  match outcome with
  | .ok resp =>
      if resp.status = "OK" ∧ resp.data ≠ [] then
        some (pyRound (sumPresent resp.data) 3)
      else
        none
  | .clientResponseError _ => none
  | .clientError => none

/-- One discovered meter resource, as stored in the client's
`self._resources[classifier]` dict (`api.py` line 92). -/
structure Resource where
  resource_id : String
  name : String
  classifier : String
  base_unit : String
deriving Repr, DecidableEq

/-- `GlowmarktApiClient.get_all_readings` (`api.py` lines 168-174): for
every item of the resource catalog (given here as its list of
`(classifier, resource)` items), fetch the daily reading of its
`resource_id`.  `fetch` gives the HTTP outcome the transport produced for
each resource id. -/
def get_all_readings (items : List (String × Resource))
    (fetch : String → FetchOutcome) : List (String × Option ℚ) :=
  items.map (fun cr => (cr.1, get_daily_reading (fetch cr.2.resource_id)))

/-! ## API client: authentication (`api.py` lines 34-57) -/

/-- The decoded body and status of the HTTP response to `POST /auth`. -/
structure AuthResponse where
  status : ℕ
  valid : Bool
  token : String
deriving Repr, DecidableEq

/-- Outcome of the HTTP request made by `authenticate`: an HTTP response
(of any status), or a transport-level `ClientError` with no response. -/
inductive AuthOutcome where
  | response (r : AuthResponse)
  | clientError
deriving Repr, DecidableEq

/-- Result of `authenticate`: return `True` with a token, or raise one of
the two exception kinds. -/
inductive AuthResult where
  | success (token : String)
  | authError
  | apiError
deriving Repr, DecidableEq

/-- `GlowmarktApiClient.authenticate` (`api.py` lines 34-53) as a function
of the HTTP outcome.  Status 401 raises `GlowmarktAuthError` (line 40);
any other error status makes `raise_for_status` raise
`ClientResponseError`, which the handler at lines 50-51 re-raises as
`GlowmarktAuthError`; a 2xx body whose `valid` flag is falsy raises
`GlowmarktAuthError` (line 49); a transport `ClientError` is re-raised as
`GlowmarktApiError` (lines 52-53). -/
def authenticate (o : AuthOutcome) : AuthResult :=
  match o with
  | .response r =>
      if r.status = 401 then .authError
      else if 400 ≤ r.status then .authError
      else if r.valid then .success r.token
      else .authError
  | .clientError => .apiError

/-- `timedelta(days=6)` (`api.py` line 45); time is measured in seconds. -/
def sixDays : ℤ := 6 * 86400

/-- The client's token fields `_token` and `_token_expiry`
(`api.py` lines 29-30). -/
structure TokenState where
  token : Option String
  token_expiry : Option ℤ
deriving Repr, DecidableEq

/-- State effect of `authenticate` (`api.py` lines 43-47): on success the
token is stored and the expiry set to `now + 6 days`; on failure the
exception propagates and the fields are unchanged. -/
def authenticate_update (st : TokenState) (now : ℤ) (o : AuthOutcome) :
    TokenState × AuthResult :=
  match authenticate o with
  | .success tok => ({ token := some tok, token_expiry := some (now + sixDays) }, .success tok)
  | r => (st, r)

/-- `GlowmarktApiClient._ensure_authenticated` (`api.py` lines 55-57):
authenticate exactly when the token is `None`, the expiry is `None`, or
`now` is strictly past the expiry.  The second component counts how many
authentication requests the call issued (0 or 1). -/
def ensure_authenticated (st : TokenState) (now : ℤ) (o : AuthOutcome) :
    TokenState × ℕ :=
  match st.token, st.token_expiry with
  | some tok, some e =>
      if e < now then ((authenticate_update st now o).1, 1)
      else ({ token := some tok, token_expiry := some e }, 0)
  | _, _ => ((authenticate_update st now o).1, 1)

/-! ## API client: resource discovery (`api.py` lines 72-96) -/

/-- A raw resource descriptor as decoded from the JSON `resources` array
(`api.py` lines 87-92); every field is optional (`dict.get`).  A JSON
field that is present but null is modelled the same as an absent one. -/
structure RawResource where
  resourceId : Option String
  classifier : Option String
  name : Option String
  baseUnit : Option String
deriving Repr, DecidableEq

/-- Python truthiness of an optional string: `None` and the empty string
are falsy. -/
def strTruthy : Option String → Bool
  | none => false
  | some s => !s.isEmpty

/-- Outcome of the per-entity `GET /virtualentity/{id}/resources` request
(`api.py` lines 84-95): a decoded resource list, or a `ClientError`
which is logged and skipped. -/
inductive VeResourcesOutcome where
  | ok (resources : List RawResource)
  | clientError
deriving Repr, DecidableEq

/-- One element of the fetched virtual-entities list, bundled with the
outcome the transport produced for that entity's resources request. -/
structure VirtualEntity where
  veId : Option String
  fetch : VeResourcesOutcome
deriving Repr, DecidableEq

/-- The client's discovery-related state: `_virtual_entity_id` and the
classifier-keyed catalog `_resources` (`api.py` lines 31-32). -/
structure DiscoveryState where
  virtual_entity_id : Option String
  resources : String → Option Resource

/-- The inner loop body of `discover_resources` (`api.py` lines 88-93):
resources missing a truthy `resourceId` or `classifier` are dropped;
otherwise the catalog entry for the classifier is written with
`name` defaulting to the classifier and `baseUnit` defaulting to `""`. -/
def insert_resources (cat : String → Option Resource) (rs : List RawResource) :
    String → Option Resource :=
  rs.foldl (fun c r =>
    if strTruthy r.resourceId && strTruthy r.classifier then
      let cls := r.classifier.getD ""
      fun k => if k = cls then
        some { resource_id := r.resourceId.getD "", name := r.name.getD cls,
               classifier := cls, base_unit := r.baseUnit.getD "" }
      else c k
    else c) cat

/-- The outer loop body of `discover_resources` (`api.py` lines 78-95):
entities without a truthy `veId` are skipped; otherwise
`_virtual_entity_id` is set and, unless the per-entity request failed
with a `ClientError`, the entity's resources are inserted. -/
def discover_step (s : DiscoveryState) (ve : VirtualEntity) : DiscoveryState :=
  if strTruthy ve.veId then
    let s1 : DiscoveryState := { virtual_entity_id := ve.veId, resources := s.resources }
    match ve.fetch with
    | .ok rs => { s1 with resources := insert_resources s1.resources rs }
    | .clientError => s1
  else s

/-- `GlowmarktApiClient.discover_resources` (`api.py` lines 72-96) as a
function of the fetched virtual-entities list: if that list is empty the
function returns `{}` early (line 76) leaving the stored state untouched;
otherwise it resets `self._resources` to `{}` (line 77), runs the loop,
and returns the rebuilt catalog.  The result is the new client state
paired with the returned mapping. -/
def discover_resources (st : DiscoveryState) (virtual_entities : List VirtualEntity) :
    DiscoveryState × (String → Option Resource) :=
  if virtual_entities.isEmpty then
    (st, fun _ => none)
  else
    let st1 := virtual_entities.foldl discover_step
      { virtual_entity_id := st.virtual_entity_id, resources := fun _ => none }
    (st1, st1.resources)

/-! ## Coordinator (`coordinator.py`) -/

/-- `self.tariff_config.get(key, 0)` (`coordinator.py` lines 52-65): the
tariff dict read with default 0. -/
def tariff_get (t : String → Option ℚ) (k : String) : ℚ := (t k).getD 0

/-- One iteration of the cache-merge loop (`coordinator.py` lines 37-43):
a fresh non-null reading overwrites the last-known-good cache entry for
its classifier; a fresh `None` leaves the cache untouched. -/
def merge_step (c : String → Option ℚ) (kv : String × Option ℚ) : String → Option ℚ :=
  match kv.2 with
  | some v => fun k => if k = kv.1 then some v else c k
  | none => c

/-- The cache-merge loop (`coordinator.py` lines 37-43) over all fetched
readings. -/
def merge_cache (cache : String → Option ℚ) (readings : List (String × Option ℚ)) :
    String → Option ℚ :=
  readings.foldl merge_step cache

/-- The dict comprehension at `coordinator.py` line 46:
`{k: self._last_readings.get(k) for k in readings.keys()}`.  A classifier
that was fetched this cycle maps to `some` of its cached value (which may
itself be `none` when nothing was ever observed); anything else is absent
from the dict. -/
def merged_readings (cache : String → Option ℚ) (readings : List (String × Option ℚ)) :
    String → Option (Option ℚ) :=
  fun k => if (readings.map Prod.fst).contains k then some (cache k) else none

/-- `merged_readings.get(key)` on a dict whose values are optional floats:
an absent key and a stored `None` both read back as `None`. -/
def dict_get_flat (merged : String → Option (Option ℚ)) (k : String) : Option ℚ :=
  (merged k).join

/-- The `data["costs"]` dict built at `coordinator.py` lines 48-66:
`electricity` and `gas` are present exactly when the corresponding
consumption reading is, `total` and `standing_charges_total` always. -/
structure Costs where
  electricity : Option ℚ
  gas : Option ℚ
  total : ℚ
  standing_charges_total : ℚ
deriving Repr, DecidableEq

/-- The cost computation (`coordinator.py` lines 50-66). -/
def compute_costs (tariff : String → Option ℚ) (merged : String → Option (Option ℚ)) :
    Costs :=
  let elec_cost : Option ℚ :=
    match dict_get_flat merged "electricity.consumption" with
    | some e => some (pyRound (e * tariff_get tariff "electricity_rate"
        + tariff_get tariff "electricity_standing_charge") 2)
    | none => none
  let gas_cost : Option ℚ :=
    match dict_get_flat merged "gas.consumption" with
    | some g => some (pyRound (g * tariff_get tariff "gas_rate"
        + tariff_get tariff "gas_standing_charge") 2)
    | none => none
  { electricity := elec_cost
    gas := gas_cost
    total := pyRound (elec_cost.getD 0 + gas_cost.getD 0) 2
    standing_charges_total := pyRound (tariff_get tariff "electricity_standing_charge"
      + tariff_get tariff "gas_standing_charge") 2 }

/-- The snapshot published by a refresh cycle (`coordinator.py` line 48):
the merged readings dict and the derived costs. -/
structure Snapshot where
  readings : String → Option (Option ℚ)
  costs : Costs

/-- The post-discovery part of
`GlowmarktDataUpdateCoordinator._async_update_data`
(`coordinator.py` lines 34-68), as a function of the fetched readings:
merge into the last-known-good cache, build the merged readings dict,
derive costs, and publish.  Returns the new cache paired with the
published snapshot. -/
def update_cycle (cache : String → Option ℚ) (tariff : String → Option ℚ)
    (readings : List (String × Option ℚ)) : (String → Option ℚ) × Snapshot :=
  let cache1 := merge_cache cache readings
  let merged := merged_readings cache1 readings
  (cache1, { readings := merged, costs := compute_costs tariff merged })

/-- `GlowmarktDataUpdateCoordinator.clear_daily_cache`
(`coordinator.py` lines 82-85): `self._last_readings.clear()`. -/
def clear_daily_cache (_cache : String → Option ℚ) : String → Option ℚ :=
  fun _ => none

/-! ## The discovery call made by the coordinator (`coordinator.py` line 32)

`_async_update_data` calls
`self.api_client.discover_resources(self._virtual_entity_id)`, passing one
positional argument, while `api.py` line 72 declares
`async def discover_resources(self)` with no parameter besides `self`.
Python raises `TypeError` for such a call before the callee body runs; we
model the call with an explicit arity check. -/

/-- Number of parameters (besides `self`) of
`GlowmarktApiClient.discover_resources` as declared at `api.py` line 72. -/
def discover_resources_param_count : ℕ := 0

/-- Number of positional arguments (besides `self`) the coordinator passes
at `coordinator.py` line 32. -/
def coordinator_discover_arg_count : ℕ := 1

/-- Result of a Python call whose argument count may not match the
callee's signature. -/
inductive PyCallOutcome (α : Type) where
  | ok (a : α)
  | typeError
deriving Repr, DecidableEq

/-- A Python call under CPython's arity rule: if the number of supplied
positional arguments differs from the callee's parameter count the
interpreter raises `TypeError` without running the callee. -/
def call_with_arity {α : Type} (params args : ℕ) (result : α) : PyCallOutcome α :=
  if args = params then .ok result else .typeError

/-- `GlowmarktDataUpdateCoordinator._async_update_data`
(`coordinator.py` lines 29-68) with the discovery call's arity made
explicit: when the coordinator's catalog is empty it invokes
`discover_resources` with one positional argument (line 32); `discovered`
is the catalog that call would return if it ran.  `TypeError` is not one
of the two exception kinds caught at lines 70-73, so it propagates. -/
def async_update_data (resources : List (String × Resource))
    (discovered : List (String × Resource))
    (fetch : String → FetchOutcome) (tariff : String → Option ℚ)
    (cache : String → Option ℚ) :
    PyCallOutcome ((String → Option ℚ) × Snapshot) :=
  match (if resources.isEmpty then
           call_with_arity discover_resources_param_count coordinator_discover_arg_count discovered
         else .ok resources) with
  | .typeError => .typeError
  | .ok res => .ok (update_cycle cache tariff (get_all_readings res fetch))

/-! ## Helper lemmas -/

/-- The executable floor agrees with the mathematical floor. -/
theorem rfloor_eq_floor (q : ℚ) : rfloor q = ⌊q⌋ := by
  rw [rfloor, Rat.floor_def, Int.fdiv_eq_ediv _ (by positivity)]

/-- A list of pairs whose second components are all `some 0` sums to 0. -/
theorem sum_filterMap_all_zero (data : List (ℕ × Option ℚ))
    (h : ∀ p ∈ data, p.2 = some 0) : (data.filterMap Prod.snd).sum = 0 := by
  induction data with
  | nil => rfl
  | cons p rest ih =>
      have hp := h p (List.mem_cons_self _ _)
      have hrest := ih fun q hq => h q (List.mem_cons_of_mem _ hq)
      simp [List.filterMap_cons, hp, hrest]

/-- If every fetched entry for classifier `C` carries `None`, the merge
loop leaves the cache at `C` unchanged. -/
theorem merge_cache_of_none (r : List (String × Option ℚ)) :
    ∀ (cache : String → Option ℚ) (C : String),
    (∀ p ∈ r, p.1 = C → p.2 = none) → merge_cache cache r C = cache C := by
  induction r with
  | nil => intro cache C _; rfl
  | cons p rest ih =>
      intro cache C h
      have hrest : ∀ q ∈ rest, q.1 = C → q.2 = none :=
        fun q hq => h q (List.mem_cons_of_mem _ hq)
      have hstep : merge_cache cache (p :: rest) = merge_cache (merge_step cache p) rest := rfl
      rw [hstep, ih (merge_step cache p) C hrest]
      cases hp : p.2 with
      | none => simp [merge_step, hp]
      | some v =>
          have hne : ¬ (C = p.1) := by
            intro heq
            have := h p (List.mem_cons_self _ _) heq.symm
            rw [hp] at this
            exact Option.noConfusion this
          simp [merge_step, hp, hne]

/-- The merge loop either leaves the cache value at `C` unchanged or
overwrites it with a non-null value fetched for `C` this cycle. -/
theorem merge_cache_grow_or_overwrite (r : List (String × Option ℚ)) :
    ∀ (cache : String → Option ℚ) (C : String),
    merge_cache cache r C = cache C ∨
      ∃ v, (C, some v) ∈ r ∧ merge_cache cache r C = some v := by
  induction r with
  | nil => intro cache C; exact Or.inl rfl
  | cons p rest ih =>
      intro cache C
      have hstep : merge_cache cache (p :: rest) = merge_cache (merge_step cache p) rest := rfl
      rcases ih (merge_step cache p) C with h | ⟨v, hv, hm⟩
      · rw [hstep, h]
        cases hp : p.2 with
        | none => exact Or.inl (by simp [merge_step, hp])
        | some v =>
            by_cases hC : C = p.1
            · refine Or.inr ⟨v, ?_, by simp [merge_step, hp, hC]⟩
              have : p = (C, some v) := by
                cases p; simp_all
              rw [← this]
              exact List.mem_cons_self _ _
            · exact Or.inl (by simp [merge_step, hp, hC])
      · exact Or.inr ⟨v, List.mem_cons_of_mem _ hv, by rw [hstep]; exact hm⟩

/-- Reading the merged dict at a classifier fetched this cycle gives the
cached value. -/
theorem merged_readings_of_contains (cache : String → Option ℚ)
    (r : List (String × Option ℚ)) (k : String)
    (h : (r.map Prod.fst).contains k = true) :
    merged_readings cache r k = some (cache k) := by
  unfold merged_readings
  rw [if_pos h]

/-- Inversion: a merged dict entry comes from the cache, at a classifier
fetched this cycle. -/
theorem merged_readings_eq_some (cache : String → Option ℚ)
    (r : List (String × Option ℚ)) (k : String) (x : Option ℚ)
    (h : merged_readings cache r k = some x) :
    (r.map Prod.fst).contains k = true ∧ cache k = x := by
  by_cases hc : (r.map Prod.fst).contains k = true
  · refine ⟨hc, ?_⟩
    rw [merged_readings_of_contains cache r k hc] at h
    exact Option.some_injective _ h
  · unfold merged_readings at h
    rw [if_neg hc] at h
    exact Option.noConfusion h

/-- `discover_step` updates the catalog using only the incoming catalog,
never any other part of the state. -/
theorem discover_step_resources_congr (s1 s2 : DiscoveryState) (ve : VirtualEntity)
    (h : s1.resources = s2.resources) :
    (discover_step s1 ve).resources = (discover_step s2 ve).resources := by
  cases hb : strTruthy ve.veId
  · simp [discover_step, hb, h]
  · cases hf : ve.fetch <;> simp [discover_step, hb, hf, h]

/-- The discovery loop's resulting catalog depends only on the catalog it
starts from. -/
theorem foldl_discover_resources_congr (ves : List VirtualEntity) :
    ∀ s1 s2 : DiscoveryState, s1.resources = s2.resources →
    (ves.foldl discover_step s1).resources = (ves.foldl discover_step s2).resources := by
  induction ves with
  | nil => intro s1 s2 h; exact h
  | cons ve rest ih =>
      intro s1 s2 h
      exact ih _ _ (discover_step_resources_congr _ _ _ h)

/-! ## Claim theorems -/

/-- C1: for every response with status "OK" and a non-empty data array of
(timestamp, value) pairs, `get_daily_reading` returns the sum of exactly
the present (non-null) value components, rounded to 3 decimal places;
null values are excluded from the sum rather than counted as zero. -/
theorem daily_reading_ok_sums_present (resp : ReadingsResponse)
    (hok : resp.status = "OK") (hne : resp.data ≠ []) :
    get_daily_reading (.ok resp) =
      some (pyRound ((resp.data.filterMap Prod.snd).sum) 3) := by
  simp [get_daily_reading, hok, hne, sumPresent]

/-- Witness for C1 at a concrete response with one null interval: the null
is skipped and 1.5 + 2 rounds to 3.5. -/
theorem daily_reading_ok_sums_present_witness :
    get_daily_reading (.ok ⟨"OK", [(0, some (3/2)), (1, none), (2, some 2)]⟩) =
      some (7/2) := by
  have h := daily_reading_ok_sums_present
    ⟨"OK", [(0, some (3/2)), (1, none), (2, some 2)]⟩ rfl (by simp)
  rw [h]
  norm_num [pyRound, rhe, rfloor_eq_floor, List.filterMap_cons]

/-- C4: `get_daily_reading` returns `None` — never raising and never
substituting 0.0 — whenever the status is not "OK", the data array is
empty, or an HTTP/transport error occurred during the call; this `None`
is distinct from the `0.0` returned for an all-zero all-present dataset;
and `get_all_readings` yields one entry per catalog item, each depending
only on its own resource's fetch outcome, so one failure never aborts the
aggregation of the others. -/
theorem daily_reading_failure_yields_none (resp : ReadingsResponse)
    (items : List (String × Resource)) (fetch : String → FetchOutcome) :
    (resp.status ≠ "OK" ∨ resp.data = [] → get_daily_reading (.ok resp) = none) ∧
    (∀ s, get_daily_reading (.clientResponseError s) = none) ∧
    (get_daily_reading .clientError = none) ∧
    (resp.status = "OK" → resp.data ≠ [] → (∀ p ∈ resp.data, p.2 = some 0) →
      get_daily_reading (.ok resp) = some 0) ∧
    ((get_all_readings items fetch).length = items.length) ∧
    (∀ cr ∈ items,
      (cr.1, get_daily_reading (fetch cr.2.resource_id)) ∈ get_all_readings items fetch) := by
  refine ⟨?_, fun s => rfl, rfl, ?_, by simp [get_all_readings], ?_⟩
  · rintro (hbad | hempty)
    · simp [get_daily_reading, hbad]
    · simp [get_daily_reading, hempty]
  · intro hok hne hzero
    rw [daily_reading_ok_sums_present resp hok hne, sum_filterMap_all_zero resp.data hzero]
    norm_num [pyRound, rhe, rfloor_eq_floor]
  · intro cr hcr
    simp only [get_all_readings]
    exact List.mem_map_of_mem _ hcr

/-- Witness for C4 at concrete inputs: a non-OK response, an HTTP error,
a transport error, an all-zero dataset, and a one-item catalog whose only
resource fails. -/
theorem daily_reading_failure_yields_none_witness :
    get_daily_reading (.ok ⟨"ERROR", [(0, some 1)]⟩) = none ∧
    get_daily_reading (.clientResponseError 500) = none ∧
    get_daily_reading .clientError = none ∧
    get_daily_reading (.ok ⟨"OK", [(0, some 0), (1, some 0)]⟩) = some 0 ∧
    (get_all_readings
        [("electricity.consumption",
          { resource_id := "rid-1", name := "Elec",
            classifier := "electricity.consumption", base_unit := "kWh" })]
        (fun _ => .clientError)).length = 1 := by
  obtain ⟨h1, h2, h3, _, _, _⟩ := daily_reading_failure_yields_none
    ⟨"ERROR", [(0, some 1)]⟩ ([]) (fun _ => .clientError)
  obtain ⟨_, _, _, h4, _, _⟩ := daily_reading_failure_yields_none
    ⟨"OK", [(0, some 0), (1, some 0)]⟩ ([]) (fun _ => .clientError)
  obtain ⟨_, _, _, _, h5, _⟩ := daily_reading_failure_yields_none
    ⟨"OK", []⟩
    [("electricity.consumption",
      { resource_id := "rid-1", name := "Elec",
        classifier := "electricity.consumption", base_unit := "kWh" })]
    (fun _ => .clientError)
  exact ⟨h1 (Or.inl (by decide)), h2 500, h3,
    h4 rfl (by simp) (by intro p hp; fin_cases hp <;> rfl), h5⟩

/-- C5 counterexample: the auth endpoint answering HTTP 500 makes
`authenticate` fail with AuthError (the `except ClientResponseError`
handler at `api.py` lines 50-51 wraps it), not ApiError as claimed. -/
theorem authenticate_http500_counterexample :
    authenticate (.response ⟨500, true, "tok"⟩) = .authError ∧
    authenticate (.response ⟨500, true, "tok"⟩) ≠ .apiError := by
  constructor
  · decide
  · decide

/-- C5 amended: `authenticate` fails with AuthError exactly on an HTTP
error status (400 or above, including 401) or on a response whose valid
flag is not set, and fails with ApiError exactly on a transport-level
failure that produced no HTTP response. -/
theorem authenticate_error_classification (o : AuthOutcome) :
    (authenticate o = .authError ↔
      ∃ r, o = .response r ∧ (400 ≤ r.status ∨ r.valid = false)) ∧
    (authenticate o = .apiError ↔ o = .clientError) := by
  cases o with
  | clientError => simp [authenticate]
  | response r =>
      constructor
      · constructor
        · intro h
          refine ⟨r, rfl, ?_⟩
          by_cases h400 : 400 ≤ r.status
          · exact Or.inl h400
          · right
            have h401 : ¬ r.status = 401 := by omega
            by_cases hv : r.valid = true
            · exfalso
              have hs : authenticate (.response r) = .success r.token := by
                simp [authenticate, h401, h400, hv]
              rw [hs] at h
              exact AuthResult.noConfusion h
            · simpa using hv
        · rintro ⟨r', hr', hcond⟩
          injection hr' with hrr
          subst hrr
          rcases hcond with h400 | hvf
          · by_cases h401 : r.status = 401
            · simp [authenticate, h401]
            · simp [authenticate, h401, h400]
          · by_cases h401 : r.status = 401
            · simp [authenticate, h401]
            · by_cases h400 : 400 ≤ r.status
              · simp [authenticate, h401, h400]
              · simp [authenticate, h401, h400, hvf]
      · constructor
        · intro h
          exfalso
          by_cases h401 : r.status = 401
          · rw [show authenticate (.response r) = .authError from by
              simp [authenticate, h401]] at h
            exact AuthResult.noConfusion h
          · by_cases h400 : 400 ≤ r.status
            · rw [show authenticate (.response r) = .authError from by
                simp [authenticate, h401, h400]] at h
              exact AuthResult.noConfusion h
            · by_cases hv : r.valid = true
              · rw [show authenticate (.response r) = .success r.token from by
                  simp [authenticate, h401, h400, hv]] at h
                exact AuthResult.noConfusion h
              · have hv' : r.valid = false := by simpa using hv
                rw [show authenticate (.response r) = .authError from by
                  simp [authenticate, h401, h400, hv']] at h
                exact AuthResult.noConfusion h
        · intro h
          exact AuthOutcome.noConfusion h

/-- Witness for C5's amended classification at concrete outcomes: 401 and
an invalid-flag response are AuthError, a transport failure is ApiError. -/
theorem authenticate_error_classification_witness :
    authenticate (.response ⟨401, true, "t"⟩) = .authError ∧
    authenticate (.response ⟨200, false, "t"⟩) = .authError ∧
    authenticate .clientError = .apiError := by
  refine ⟨?_, ?_, ?_⟩
  · exact ((authenticate_error_classification (.response ⟨401, true, "t"⟩)).1).mpr
      ⟨⟨401, true, "t"⟩, rfl, Or.inl (by decide)⟩
  · exact ((authenticate_error_classification (.response ⟨200, false, "t"⟩)).1).mpr
      ⟨⟨200, false, "t"⟩, rfl, Or.inr rfl⟩
  · exact ((authenticate_error_classification .clientError).2).mpr rfl

/-- C6 evaluation at the failing input: when the coordinator's resource
catalog is empty, the discovery call at `coordinator.py` line 32 passes
one positional argument to a method declared with none (`api.py` line 72),
so the refresh raises TypeError instead of completing discovery. -/
theorem empty_catalog_discovery_raises_type_error
    (discovered : List (String × Resource)) (fetch : String → FetchOutcome)
    (tariff : String → Option ℚ) (cache : String → Option ℚ) :
    async_update_data [] discovered fetch tariff cache = .typeError := rfl

/-- C7 counterexample: a `discover_resources` call whose fetched
virtual-entities list is empty returns early and leaves the previously
stored catalog in place, so the catalog does retain prior entries. -/
theorem discover_resources_empty_retains_catalog :
    ((discover_resources
        { virtual_entity_id := none
          resources := fun k =>
            if k = "electricity.consumption" then
              some { resource_id := "rid-1", name := "Elec",
                     classifier := "electricity.consumption", base_unit := "kWh" }
            else none }
        []).1.resources) "electricity.consumption" =
      some { resource_id := "rid-1", name := "Elec",
             classifier := "electricity.consumption", base_unit := "kWh" } := by
  simp [discover_resources]

/-- C7 amended: with a non-empty fetched virtual-entities list the rebuilt
catalog depends only on the entities and resources fetched during that
call — never on the prior catalog — and is exactly what the call returns;
with an empty list the call returns an empty mapping but leaves the
stored catalog unchanged. -/
theorem discover_resources_wholesale_replacement (st1 st2 : DiscoveryState)
    (ves : List VirtualEntity) (hne : ves ≠ []) :
    (discover_resources st1 ves).1.resources = (discover_resources st2 ves).1.resources ∧
    (discover_resources st1 ves).2 = (discover_resources st1 ves).1.resources ∧
    (discover_resources st1 []).2 = (fun _ => none) ∧
    (discover_resources st1 []).1.resources = st1.resources := by
  have hne' : ves.isEmpty = false := by
    cases ves with
    | nil => exact absurd rfl hne
    | cons v t => rfl
  refine ⟨?_, ?_, rfl, rfl⟩
  · simp only [discover_resources, hne', Bool.false_eq_true, if_false]
    exact foldl_discover_resources_congr ves _ _ rfl
  · simp only [discover_resources, hne', Bool.false_eq_true, if_false]

/-- Witness for C7's amended statement: a discovery call fetching one
entity with one resource rebuilds the same catalog whether the prior
catalog was empty or held a stale entry. -/
theorem discover_resources_wholesale_replacement_witness :
    (discover_resources
        { virtual_entity_id := none
          resources := fun k =>
            if k = "stale" then
              some { resource_id := "old", name := "Old",
                     classifier := "stale", base_unit := "" }
            else none }
        [{ veId := some "ve1"
           fetch := .ok [{ resourceId := some "rid-9", classifier := some "gas.consumption",
                           name := none, baseUnit := some "m3" }] }]).1.resources =
    (discover_resources
        { virtual_entity_id := none, resources := fun _ => none }
        [{ veId := some "ve1"
           fetch := .ok [{ resourceId := some "rid-9", classifier := some "gas.consumption",
                           name := none, baseUnit := some "m3" }] }]).1.resources :=
  (discover_resources_wholesale_replacement _ _ _ (List.cons_ne_nil _ _)).1

/-- C2: if refresh cycle N publishes value V for classifier C and cycle
N+1's fresh fetch yields no value (None) for C, the snapshot published by
cycle N+1 still reports V for C; if no value was ever observed for C, the
snapshot reports C as unknown (None). -/
theorem fallback_invariant (cache0 tariff : String → Option ℚ)
    (r1 r2 : List (String × Option ℚ)) (C : String) (V : ℚ) :
    ((update_cycle cache0 tariff r1).2.readings C = some (some V) →
      (r2.map Prod.fst).contains C = true →
      (∀ p ∈ r2, p.1 = C → p.2 = none) →
      (update_cycle (update_cycle cache0 tariff r1).1 tariff r2).2.readings C =
        some (some V)) ∧
    (cache0 C = none →
      (∀ p ∈ r1, p.1 = C → p.2 = none) →
      (∀ p ∈ r2, p.1 = C → p.2 = none) →
      (r2.map Prod.fst).contains C = true →
      (update_cycle (update_cycle cache0 tariff r1).1 tariff r2).2.readings C =
        some none) := by
  constructor
  · intro hpub hmem hnone
    have hpub' : merged_readings (merge_cache cache0 r1) r1 C = some (some V) := hpub
    obtain ⟨-, hcache⟩ := merged_readings_eq_some _ _ _ _ hpub'
    have h2 : merge_cache (merge_cache cache0 r1) r2 C = some V := by
      rw [merge_cache_of_none r2 _ C hnone, hcache]
    show merged_readings (merge_cache (merge_cache cache0 r1) r2) r2 C = some (some V)
    rw [merged_readings_of_contains _ _ _ hmem, h2]
  · intro h0 h1n h2n hmem
    have hc1 : merge_cache cache0 r1 C = none := by
      rw [merge_cache_of_none r1 _ C h1n, h0]
    have hc2 : merge_cache (merge_cache cache0 r1) r2 C = none := by
      rw [merge_cache_of_none r2 _ C h2n, hc1]
    show merged_readings (merge_cache (merge_cache cache0 r1) r2) r2 C = some none
    rw [merged_readings_of_contains _ _ _ hmem, hc2]

/-- Witness for C2: cycle 1 fetches 3 for electricity, cycle 2 fetches
None for it, and the cycle-2 snapshot still reports 3. -/
theorem fallback_invariant_witness :
    (update_cycle
        (update_cycle (fun _ => none) (fun _ => none)
          [("electricity.consumption", some 3)]).1
        (fun _ => none) [("electricity.consumption", none)]).2.readings
      "electricity.consumption" = some (some 3) := by
  refine (fallback_invariant (fun _ => none) (fun _ => none)
    [("electricity.consumption", some 3)] [("electricity.consumption", none)]
    "electricity.consumption" 3).1 rfl rfl ?_
  intro p hp _
  simp only [List.mem_singleton] at hp
  rw [hp]

/-- C3: in every published snapshot the costs are derived by
`compute_costs` from the snapshot's own merged readings; the electricity
cost is present exactly when an electricity consumption reading is, and
then equals round(consumption * rate + standing, 2) (analogously for
gas); total equals round(electricity-or-0 + gas-or-0, 2); and
standing_charges_total equals round(elec_standing + gas_standing, 2)
regardless of any readings. -/
theorem cost_derivation (tariff cache : String → Option ℚ)
    (r : List (String × Option ℚ)) (merged : String → Option (Option ℚ)) :
    ((update_cycle cache tariff r).2.costs =
      compute_costs tariff ((update_cycle cache tariff r).2.readings)) ∧
    ((compute_costs tariff merged).electricity = none ↔
      dict_get_flat merged "electricity.consumption" = none) ∧
    (∀ e, dict_get_flat merged "electricity.consumption" = some e →
      (compute_costs tariff merged).electricity =
        some (pyRound (e * tariff_get tariff "electricity_rate"
          + tariff_get tariff "electricity_standing_charge") 2)) ∧
    ((compute_costs tariff merged).gas = none ↔
      dict_get_flat merged "gas.consumption" = none) ∧
    (∀ g, dict_get_flat merged "gas.consumption" = some g →
      (compute_costs tariff merged).gas =
        some (pyRound (g * tariff_get tariff "gas_rate"
          + tariff_get tariff "gas_standing_charge") 2)) ∧
    ((compute_costs tariff merged).total =
      pyRound (((compute_costs tariff merged).electricity).getD 0
        + ((compute_costs tariff merged).gas).getD 0) 2) ∧
    ((compute_costs tariff merged).standing_charges_total =
      pyRound (tariff_get tariff "electricity_standing_charge"
        + tariff_get tariff "gas_standing_charge") 2) := by
  refine ⟨rfl, ?_, ?_, ?_, ?_, rfl, rfl⟩
  · cases he : dict_get_flat merged "electricity.consumption" with
    | none => simp [compute_costs, he]
    | some e => simp [compute_costs, he]
  · intro e he
    simp [compute_costs, he]
  · cases hg : dict_get_flat merged "gas.consumption" with
    | none => simp [compute_costs, hg]
    | some g => simp [compute_costs, hg]
  · intro g hg
    simp [compute_costs, hg]

/-- Witness for C3 at the spec's concrete numbers: consumption 10, rate
0.245, standing 0.45, gas absent, gas standing 0.30 — electricity cost
2.9, gas cost absent, total 2.9, standing charges total 0.75. -/
theorem cost_derivation_witness :
    (compute_costs
        (fun k => if k = "electricity_rate" then some (245/1000)
          else if k = "electricity_standing_charge" then some (45/100)
          else if k = "gas_rate" then some (65/1000)
          else if k = "gas_standing_charge" then some (30/100) else none)
        (fun k => if k = "electricity.consumption" then some (some 10) else none)).electricity
      = some (29/10) ∧
    (compute_costs
        (fun k => if k = "electricity_rate" then some (245/1000)
          else if k = "electricity_standing_charge" then some (45/100)
          else if k = "gas_rate" then some (65/1000)
          else if k = "gas_standing_charge" then some (30/100) else none)
        (fun k => if k = "electricity.consumption" then some (some 10) else none)).gas
      = none ∧
    (compute_costs
        (fun k => if k = "electricity_rate" then some (245/1000)
          else if k = "electricity_standing_charge" then some (45/100)
          else if k = "gas_rate" then some (65/1000)
          else if k = "gas_standing_charge" then some (30/100) else none)
        (fun k => if k = "electricity.consumption" then some (some 10) else none)).total
      = 29/10 ∧
    (compute_costs
        (fun k => if k = "electricity_rate" then some (245/1000)
          else if k = "electricity_standing_charge" then some (45/100)
          else if k = "gas_rate" then some (65/1000)
          else if k = "gas_standing_charge" then some (30/100) else none)
        (fun k => if k = "electricity.consumption" then some (some 10) else none)).standing_charges_total
      = 3/4 := by
  obtain ⟨-, hiffe, helec, hiffg, -, htot, hstand⟩ := cost_derivation
    (fun k => if k = "electricity_rate" then some (245/1000)
      else if k = "electricity_standing_charge" then some (45/100)
      else if k = "gas_rate" then some (65/1000)
      else if k = "gas_standing_charge" then some (30/100) else none)
    (fun _ => none) []
    (fun k => if k = "electricity.consumption" then some (some 10) else none)
  have he : (compute_costs
      (fun k => if k = "electricity_rate" then some (245/1000)
        else if k = "electricity_standing_charge" then some (45/100)
        else if k = "gas_rate" then some (65/1000)
        else if k = "gas_standing_charge" then some (30/100) else none)
      (fun k => if k = "electricity.consumption" then some (some 10) else none)).electricity
      = some (29/10) := by
    rw [helec 10 rfl]
    simp only [tariff_get, String.reduceEq, reduceIte, Option.getD_some]
    norm_num [pyRound, rhe, rfloor_eq_floor]
  have hg : (compute_costs
      (fun k => if k = "electricity_rate" then some (245/1000)
        else if k = "electricity_standing_charge" then some (45/100)
        else if k = "gas_rate" then some (65/1000)
        else if k = "gas_standing_charge" then some (30/100) else none)
      (fun k => if k = "electricity.consumption" then some (some 10) else none)).gas
      = none := by
    rw [hiffg]
    rfl
  refine ⟨he, hg, ?_, ?_⟩
  · rw [htot, he, hg]
    norm_num [pyRound, rhe, rfloor_eq_floor]
  · rw [hstand]
    simp only [tariff_get, String.reduceEq, reduceIte, Option.getD_some]
    norm_num [pyRound, rhe, rfloor_eq_floor]

/-- C8: starting with no token, a first call authenticates exactly once
and sets the expiry to now + 6 days; a second call within the 6-day
window issues no further request (one authentication in total); a call
after expiry re-authenticates exactly once before proceeding and sets the
new expiry to its own now + 6 days. -/
theorem token_lifecycle (t1 t2 t3 : ℤ) (o1 o2 o3 : AuthOutcome)
    (tok1 tok3 : String)
    (hs1 : authenticate o1 = .success tok1)
    (hs3 : authenticate o3 = .success tok3)
    (h2 : t2 ≤ t1 + sixDays) (h3 : t1 + sixDays < t3) :
    (ensure_authenticated ⟨none, none⟩ t1 o1).2 = 1 ∧
    (ensure_authenticated ⟨none, none⟩ t1 o1).1 =
      ⟨some tok1, some (t1 + sixDays)⟩ ∧
    (ensure_authenticated (ensure_authenticated ⟨none, none⟩ t1 o1).1 t2 o2).2 = 0 ∧
    (ensure_authenticated (ensure_authenticated ⟨none, none⟩ t1 o1).1 t2 o2).1 =
      (ensure_authenticated ⟨none, none⟩ t1 o1).1 ∧
    (ensure_authenticated
        (ensure_authenticated (ensure_authenticated ⟨none, none⟩ t1 o1).1 t2 o2).1
        t3 o3).2 = 1 ∧
    (ensure_authenticated
        (ensure_authenticated (ensure_authenticated ⟨none, none⟩ t1 o1).1 t2 o2).1
        t3 o3).1 = ⟨some tok3, some (t3 + sixDays)⟩ := by
  have e1 : ensure_authenticated ⟨none, none⟩ t1 o1 =
      (⟨some tok1, some (t1 + sixDays)⟩, 1) := by
    simp [ensure_authenticated, authenticate_update, hs1]
  have hnlt : ¬ (t1 + sixDays < t2) := not_lt.mpr h2
  have e2 : ensure_authenticated ⟨some tok1, some (t1 + sixDays)⟩ t2 o2 =
      (⟨some tok1, some (t1 + sixDays)⟩, 0) := by
    simp only [ensure_authenticated]
    rw [if_neg hnlt]
  have e3 : ensure_authenticated ⟨some tok1, some (t1 + sixDays)⟩ t3 o3 =
      (⟨some tok3, some (t3 + sixDays)⟩, 1) := by
    simp only [ensure_authenticated]
    rw [if_pos h3]
    simp [authenticate_update, hs3]
  rw [e1, e2, e3]
  exact ⟨rfl, rfl, rfl, rfl, rfl, rfl⟩

/-- Witness for C8 at concrete times (seconds): calls at 0 and 100 issue
one authentication; a call at 518401 (just past 0 + 6 days = 518400)
issues a second one. -/
theorem token_lifecycle_witness :
    (ensure_authenticated ⟨none, none⟩ 0 (.response ⟨200, true, "tokA"⟩)).2 = 1 ∧
    (ensure_authenticated
        (ensure_authenticated ⟨none, none⟩ 0 (.response ⟨200, true, "tokA"⟩)).1
        100 .clientError).2 = 0 ∧
    (ensure_authenticated
        (ensure_authenticated
          (ensure_authenticated ⟨none, none⟩ 0 (.response ⟨200, true, "tokA"⟩)).1
          100 .clientError).1
        518401 (.response ⟨200, true, "tokB"⟩)).2 = 1 := by
  obtain ⟨a, -, b, -, c, -⟩ := token_lifecycle 0 100 518401
    (.response ⟨200, true, "tokA"⟩) .clientError (.response ⟨200, true, "tokB"⟩)
    "tokA" "tokB" rfl rfl (by decide) (by decide)
  exact ⟨a, b, c⟩

/-- C9: `clear_daily_cache` empties the last-known-good cache entirely,
so a subsequent refresh cycle whose fresh fetch yields no value for a
classifier publishes unknown (None) for it rather than any value cached
before the clear. -/
theorem clear_daily_cache_resets (cache tariff : String → Option ℚ)
    (r : List (String × Option ℚ)) (C : String)
    (hmem : (r.map Prod.fst).contains C = true)
    (hnone : ∀ p ∈ r, p.1 = C → p.2 = none) :
    (∀ k, clear_daily_cache cache k = none) ∧
    (update_cycle (clear_daily_cache cache) tariff r).2.readings C = some none := by
  refine ⟨fun k => rfl, ?_⟩
  have hc : merge_cache (clear_daily_cache cache) r C = none := by
    rw [merge_cache_of_none r _ C hnone]
    rfl
  show merged_readings (merge_cache (clear_daily_cache cache) r) r C = some none
  rw [merged_readings_of_contains _ _ _ hmem, hc]

/-- Witness for C9: a cache holding 7 for gas is cleared; the next cycle
fetches None for gas and publishes unknown, not 7. -/
theorem clear_daily_cache_resets_witness :
    (update_cycle
        (clear_daily_cache (fun k => if k = "gas.consumption" then some 7 else none))
        (fun _ => none) [("gas.consumption", none)]).2.readings
      "gas.consumption" = some none := by
  refine ((clear_daily_cache_resets
    (fun k => if k = "gas.consumption" then some 7 else none)
    (fun _ => none) [("gas.consumption", none)] "gas.consumption" rfl ?_)).2
  intro p hp _
  simp only [List.mem_singleton] at hp
  rw [hp]

/-- C10: the last-known-good cache never maps a classifier to an absent
value and within a refresh cycle only grows or is overwritten with fresh
non-null values: the cycle's cache update is exactly the merge loop, a
fresh None never removes or replaces an existing entry, and entries are
removed only by `clear_daily_cache`. -/
theorem cache_growth_invariant (cache tariff : String → Option ℚ)
    (r : List (String × Option ℚ)) (C : String) :
    ((update_cycle cache tariff r).1 = merge_cache cache r) ∧
    (merge_cache cache r C = cache C ∨
      ∃ v, (C, some v) ∈ r ∧ merge_cache cache r C = some v) ∧
    (cache C ≠ none → merge_cache cache r C ≠ none) ∧
    (∀ k, clear_daily_cache cache k = none) := by
  refine ⟨rfl, merge_cache_grow_or_overwrite r cache C, ?_, fun k => rfl⟩
  intro hne
  rcases merge_cache_grow_or_overwrite r cache C with h | ⟨v, -, h⟩
  · rw [h]
    exact hne
  · rw [h]
    exact fun hc => Option.noConfusion hc

/-- Witness for C10: an existing electricity entry of 5 survives a cycle
whose fresh fetch yields None for it, and the cleared cache is empty. -/
theorem cache_growth_invariant_witness :
    merge_cache (fun k => if k = "electricity.consumption" then some 5 else none)
      [("electricity.consumption", none)] "electricity.consumption" ≠ none ∧
    clear_daily_cache
      (fun k => if k = "electricity.consumption" then some 5 else none)
      "electricity.consumption" = none := by
  obtain ⟨-, -, h, hclear⟩ := cache_growth_invariant
    (fun k => if k = "electricity.consumption" then some 5 else none)
    (fun _ => none) [("electricity.consumption", none)] "electricity.consumption"
  exact ⟨h (fun hc => Option.noConfusion hc), hclear "electricity.consumption"⟩

end HildebrandGlow
